/-
Verification of the chunked large-file upload engine of a OneDrive client
SDK (package `onedrive`, file `driveitems.go`).

The development shallowly embeds the functions `UploadLargeFile` and
`uploadChunk` (and the helpers they use from the Go standard library:
`strings.Split` on the one-byte separator "-", and
`strconv.ParseUint(s, 10, 64)`).  Strings coming from the wire are
represented as `List Char`; machine integers (`uint64`) are `Nat` with an
explicit `% 2^64` where the Go code can wrap.  External collaborators
(the HTTP transport and `encoding/json`) are represented by their visible
outcomes: a scripted response per chunk attempt, and per-shape decode
results carried alongside the raw body text.
-/
import Mathlib

namespace OneDrive

/-- The uint64 modulus. -/
def U64 : Nat := 2 ^ 64

/-- Embedding of Go `strings.Split(s, "-")` at the character level:
splits on every `'-'`; always returns at least one (possibly empty)
fragment, exactly as `strings.Split` does. -/
def splitDash : List Char → List (List Char)
  | [] => [[]]
  | c :: cs =>
    if c = '-' then [] :: splitDash cs
    else
      match splitDash cs with
      | [] => [[c]]
      | s :: rest => (c :: s) :: rest

/-- Embedding of Go `strconv.ParseUint(s, 10, 64)`: accepts a non-empty
string of ASCII digits (no sign prefix) whose value fits in 64 bits,
and fails otherwise. -/
def parseUint64 (s : List Char) : Option Nat :=
  if s = [] then none
  else if s.all (fun c => c.isDigit) then
    let v := s.foldl (fun a c => a * 10 + (c.toNat - 48)) 0
    if v < U64 then some v else none
  else none

/-- Result of parsing the first `nextExpectedRanges` entry on a 202
response (`driveitems.go` lines 778-790).  The Go code does
`sp := strings.Split(entry, "-"); start, end := sp[0], sp[1]`:
`panicIndex` is the out-of-bounds access `sp[1]` when the entry holds no
`'-'` (a runtime panic in Go); `parseErr` is a `strconv.ParseUint`
failure (returned as an error); `ok off len` is the resolved next
offset and next length. -/
inductive RangeParse
  | panicIndex
  | parseErr
  | ok (offset length : Nat)
deriving DecidableEq, Repr

/-- Embedding of the 202-branch range parsing in `uploadChunk`
(`driveitems.go` lines 778-790): split the first entry on `'-'`, parse
the first fragment as the next offset; if the second fragment is
non-empty, parse it and use the parsed value itself as the next length
(note: the code assigns `nextLength = ParseUint(end)`, not
`end - start + 1`); otherwise reuse the previous chunk length. -/
def parseFirstRange (entry : List Char) (prevLength : Nat) : RangeParse :=
  let sp := splitDash entry
  match sp.get? 0, sp.get? 1 with
  | some startFrag, some endFrag =>
    match parseUint64 startFrag with
    | none => .parseErr
    | some nextOffset =>
      if endFrag = [] then .ok nextOffset prevLength
      else
        match parseUint64 endFrag with
        | none => .parseErr
        | some v => .ok nextOffset v
  | _, _ => .panicIndex

example : splitDash "1048576-".toList = ["1048576".toList, []] := by decide
example : parseFirstRange "1048576-".toList 99 = .ok 1048576 99 := by decide
example : parseFirstRange "1048576-2097151".toList 99 = .ok 1048576 2097151 := by decide
example : parseFirstRange "12345".toList 99 = .panicIndex := by decide

/-- Outcome of one `io.ReaderAt.ReadAt` call: `n` bytes produced, and
the accompanying error (`io.EOF`, some other error message, or none). -/
inductive ReadErr
  | eof
  | other (msg : String)
deriving DecidableEq, Repr

structure ReadResult where
  n : Nat
  err : Option ReadErr
deriving DecidableEq, Repr

/-- Embedding of the Go `LargeFile` struct (`driveitems.go` lines
620-624): a name, a total size, and a random-access reader.  The
`io.ReaderAt` is modelled by its visible behaviour: `read off len` is
the `(n, err)` pair `ReadAt` returns for a `len`-byte buffer at byte
offset `off`. -/
structure LargeFile where
  name : String
  size : Nat
  read : Nat → Nat → ReadResult

/-- Embedding of the Go `DriveItem` struct fields the upload path
touches (the engine only decodes and returns the whole object). -/
structure DriveItem where
  name : String
  id : String
deriving DecidableEq, Repr

/-- Embedding of the Go `UploadSession` struct (`driveitems.go` lines
613-618); the fields the engine reads.  Range strings are `List Char`. -/
structure UploadSession where
  nextExpectedRanges : List (List Char)
  uploadUrl : String
deriving DecidableEq, Repr

/-- Embedding of the Go `InnerError` struct (`driveitems.go`, error
types, lines 939-943): the error details in a OneDrive error
response. -/
structure InnerError where
  date : String
  requestId : String
  clientRequestId : String
deriving DecidableEq, Repr

/-- Embedding of the Go `Error` struct (`driveitems.go` lines
924-929): code, message, localized message, and an optional (pointer)
inner error. -/
structure Error where
  code : String
  message : String
  localizedMessage : String
  innerError : Option InnerError
deriving DecidableEq, Repr

/-- Embedding of the Go `(*Error).Error()` method (`driveitems.go`
lines 931-936): `code - message (date)` when an inner error is
present, otherwise `code - message`. -/
def Error.errorString (e : Error) : String :=
  match e.innerError with
  | some inner => e.code ++ " - " ++ e.message ++ " (" ++ inner.date ++ ")"
  | none => e.code ++ " - " ++ e.message

/-- Embedding of the Go `ErrorResponse` struct (`driveitems.go` lines
919-921): an optional (pointer) `Error` field. -/
structure ErrorResponse where
  error : Option Error
deriving DecidableEq, Repr

/-- The response body as the engine sees it after `ioutil.ReadAll`:
the raw text (used verbatim in the `"%s: %s"` error), together with the
outcome of `json.Unmarshal` into each of the three shapes the engine
may decode it into.  The default branch unmarshals into a POINTER
(`var oneDriveError *ErrorResponse`), so `asError` distinguishes:
decode failure (`.error`), the body `null` which decodes successfully
to a nil pointer (`.ok none`), and a decoded `ErrorResponse` value
(`.ok (some r)`, whose own `error` field may be nil). -/
structure Body where
  raw : String
  asItem : Except String DriveItem
  asSession : Except String UploadSession
  asError : Except String (Option ErrorResponse)

/-- The server's reaction to one chunk PUT, as the engine observes it:
a transport-level failure of `client.Do`, a failure reading the
response body, or an HTTP response with status code, status line
(`resp.Status`) and body. -/
inductive PutResponse
  | transportErr (msg : String)
  | readBodyErr (msg : String)
  | http (status : Nat) (statusLine : String) (body : Body)

/-- The error values `uploadChunk` can return, one constructor per
`return nil, <err>` site. -/
inductive UploadError
  | unexpectedEOF
  | readErr (msg : String)
  | requestBuildErr (msg : String)
  | transport (msg : String)
  | bodyRead (msg : String)
  | decodeItem (msg : String)
  | decodeSession (msg : String)
  | decodeErrorShape (msg : String)
  | emptyRanges
  | rangeParse
  | rangePanic
  | remoteRaw (statusLine : String) (raw : String)
  | domain (e : Error)
deriving DecidableEq, Repr

/-- A terminal result of one chunk attempt: the decoded drive item
(Go `return &item, nil`), an error, the degenerate `return nil, nil`
that the Go code produces when `ReadAt` reports `n = 0` with a nil
error (a reader-contract violation), or the nil-pointer-dereference
panic at `driveitems.go` line 799 when the default branch decodes the
body `null` into a nil `*ErrorResponse` and then reads its `Error`
field. -/
inductive ChunkOutcome
  | item (it : DriveItem)
  | fail (e : UploadError)
  | nilNil
  | panicNilErrorResponse
deriving DecidableEq, Repr

/-- One iteration of `uploadChunk` either ends the upload or recurses
with the next `(offset, length)` pair. -/
inductive StepResult
  | terminal (o : ChunkOutcome)
  | next (offset length : Nat)
deriving DecidableEq, Repr

/-- The Content-Range header value built at `driveitems.go` lines
740-746: `fmt.Sprintf("bytes %d-%d/%d", offset, offset-1+uint64(n),
file.Size)`.  The end position is computed in `uint64` arithmetic, so
`offset - 1 + n` is taken modulo `2^64` (it wraps when `offset = 0`
and `n = 0`, a case the code has excluded by then). -/
def contentRange (offset n size : Nat) : String :=
  "bytes " ++ toString offset ++ "-"
    ++ toString ((offset + (U64 - 1) + n) % U64)
    ++ "/" ++ toString size

/-- The chunk PUT request as built at `driveitems.go` lines 734-746:
after `buffer = buffer[:n]`, the body is the `n` bytes actually read,
`Content-Length` is `n`, and `Content-Range` covers
`offset .. offset-1+n`. -/
structure ChunkRequest where
  n : Nat
  contentLength : String
  contentRangeHeader : String
deriving DecidableEq, Repr

/-- Embedding of the read-and-build phase of `uploadChunk`
(`driveitems.go` lines 718-746): read `length` bytes at `offset`; when
`n = 0` no request is built (the function returns first); otherwise
the request carries exactly the `n` bytes read. -/
def buildChunkRequest (file : LargeFile) (offset length : Nat) :
    Option ChunkRequest :=
  let r := file.read offset length
  if r.n = 0 then none
  else some ⟨r.n, toString r.n, contentRange offset r.n file.size⟩

/-- Embedding of one full iteration of `uploadChunk` (`driveitems.go`
lines 711-804), given the server's reaction `resp` to the PUT.  The
buffer is resized to `length` before the read, so `ReadAt` always
receives a `length`-byte buffer; its content is opaque here.  Branches
follow the source in order: the `n = 0` read cases, the transport and
body-read failures, then the switch on the status code. -/
def uploadChunkStep (file : LargeFile) (resp : PutResponse)
    (offset length : Nat) : StepResult :=
  let r := file.read offset length
  if r.n = 0 then
    match r.err with
    | some .eof => .terminal (.fail .unexpectedEOF)
    | some (.other msg) => .terminal (.fail (.readErr msg))
    | none => .terminal .nilNil
  else
    match resp with
    | .transportErr msg => .terminal (.fail (.transport msg))
    | .readBodyErr msg => .terminal (.fail (.bodyRead msg))
    | .http status statusLine body =>
      if status = 200 ∨ status = 201 then
        match body.asItem with
        | .error msg => .terminal (.fail (.decodeItem msg))
        | .ok item => .terminal (.item item)
      else if status = 202 then
        match body.asSession with
        | .error msg => .terminal (.fail (.decodeSession msg))
        | .ok session =>
          if session.nextExpectedRanges.length < 1 then
            .terminal (.fail .emptyRanges)
          else
            match parseFirstRange (session.nextExpectedRanges.headI) length with
            | .panicIndex => .terminal (.fail .rangePanic)
            | .parseErr => .terminal (.fail .rangeParse)
            | .ok nextOffset nextLength => .next nextOffset nextLength
      else
        match body.asError with
        | .error msg => .terminal (.fail (.decodeErrorShape msg))
        | .ok none => .terminal .panicNilErrorResponse
        | .ok (some errResp) =>
          match errResp.error with
          | none => .terminal (.fail (.remoteRaw statusLine body.raw))
          | some e => .terminal (.fail (.domain e))

/-- The recursion of `uploadChunk` (its tail call at `driveitems.go`
line 793), run against a scripted sequence of server reactions
(`resp k` answers the `k`-th PUT) and a fuel bound: `none` means the
fuel ran out before the recursion reached a terminal outcome. -/
def runUpload (file : LargeFile) (resp : Nat → PutResponse) :
    Nat → Nat → Nat × Nat → Option ChunkOutcome
  | 0, _, _ => none
  | fuel + 1, k, st =>
    match uploadChunkStep file (resp k) st.1 st.2 with
    | .terminal o => some o
    | .next off len => runUpload file resp fuel (k + 1) (off, len)

/-- The state of the `uploadChunk` recursion before its `k`-th
iteration (`some (offset, length)`), or `none` when the recursion has
already reached a terminal outcome by then. -/
def runStates (file : LargeFile) (resp : Nat → PutResponse)
    (init : Nat × Nat) : Nat → Option (Nat × Nat)
  | 0 => some init
  | k + 1 =>
    match runStates file resp init k with
    | none => none
    | some st =>
      match uploadChunkStep file (resp k) st.1 st.2 with
      | .terminal _ => none
      | .next off len => some (off, len)

/-- Result of the pre-network phase of `UploadLargeFile`
(`driveitems.go` lines 651-663): either one of the four validation
errors, or the operation proceeds to create the upload session. -/
inductive UploadStart
  | validationError (msg : String)
  | proceed
deriving DecidableEq, Repr

/-- Embedding of the input validation at the top of `UploadLargeFile`
(`driveitems.go` lines 651-663), in source order; only after all four
checks pass does the function build the API URL and issue the session
request.  `hasData` is `file.Data != nil`. -/
def uploadLargeFileStart (destinationParentFolderId : String)
    (name : String) (size : Nat) (hasData : Bool) : UploadStart :=
  if destinationParentFolderId = "" then
    .validationError "Please provide the destination, i.e. the ID of the parent folder for this new item."
  else if name = "" then
    .validationError "Please provide the file name."
  else if size = 0 then
    .validationError "Please provide the file size."
  else if hasData = false then
    .validationError "Please provide the file reader."
  else
    .proceed

/-- How the environment behaves when the deferred cleanup of
`UploadLargeFile` runs (`driveitems.go` lines 689-701): building the
DELETE request may fail, sending it may fail, or it yields a status
code. -/
inductive CleanupEnv
  | newRequestErr
  | transportErr
  | status (code : Nat)
deriving DecidableEq, Repr

/-- What the deferred cleanup block did: each constructor is one of its
`return` sites (all of which discard the failure). -/
inductive CleanupOutcome
  | reqConstructionFailed
  | transportFailed
  | badStatus (code : Nat)
  | ok
deriving DecidableEq, Repr

/-- Embedding of the deferred cleanup closure (`driveitems.go` lines
689-701): DELETE to the session URL; 204 is success; every failure is
swallowed (`return // err`). -/
def runCleanup (env : CleanupEnv) : CleanupOutcome :=
  match env with
  | .newRequestErr => .reqConstructionFailed
  | .transportErr => .transportFailed
  | .status code => if code ≠ 204 then .badStatus code else .ok

/-- Embedding of `UploadLargeFile` from session creation onward
(`driveitems.go` lines 689-708): whatever the engine returns (drive
item or error), the deferred block issues the DELETE against
`session.UploadUrl` on the way out, and the engine's result is the
function's result.  The returned triple is (function result, URL the
DELETE targets, what the cleanup did). -/
def uploadLargeFileFinish (session : UploadSession)
    (engineResult : Except UploadError DriveItem) (env : CleanupEnv) :
    (Except UploadError DriveItem) × String × CleanupOutcome :=
  (engineResult, session.uploadUrl, runCleanup env)

/-! Concrete sample values used to exercise the embedding. -/

/-- A body that decodes as an `UploadSession` with the given ranges
(and as nothing else). -/
def sessionBody (ranges : List (List Char)) : Body :=
  ⟨"", .error "json: cannot unmarshal", .ok ⟨ranges, "sess-url"⟩,
    .error "json: cannot unmarshal"⟩

/-- A body that decodes as a `DriveItem` (and as nothing else). -/
def itemBody : Body :=
  ⟨"", .ok ⟨"file.bin", "id1"⟩, .error "json: cannot unmarshal",
    .error "json: cannot unmarshal"⟩

/-- A 10-byte source whose reader honours the `io.ReaderAt` contract:
full reads below the end, `(0, io.EOF)` at or past it. -/
def sampleFile : LargeFile :=
  ⟨"sample.bin", 10, fun off len =>
    if 10 ≤ off then ⟨0, some .eof⟩ else ⟨min len (10 - off), none⟩⟩

/-- A server script that walks the 10-byte `sampleFile` in chunks of 4:
202 with next range `4-`, then 202 with `8-`, then 200 with the item. -/
def advancingResp : Nat → PutResponse := fun k =>
  if k = 0 then .http 202 "202 Accepted" (sessionBody ["4-".toList])
  else if k = 1 then .http 202 "202 Accepted" (sessionBody ["8-".toList])
  else .http 200 "200 OK" itemBody

/-- A pathological server that answers every PUT with 202 and the same
non-advancing next range `0-`. -/
def repeatingResp : Nat → PutResponse := fun _ =>
  .http 202 "202 Accepted" (sessionBody ["0-".toList])

/-! Helper lemmas. -/

/-- `strings.Split` never returns an empty slice, so `sp[0]` is always
in bounds. -/
theorem splitDash_ne_nil (l : List Char) : splitDash l ≠ [] := by
  induction l with
  | nil => simp [splitDash]
  | cons c cs ih =>
    unfold splitDash
    by_cases hc : c = '-'
    · simp [hc]
    · rw [if_neg hc]
      cases h : splitDash cs with
      | nil => simp
      | cons s rest => simp

/-- The split of an entry has a second fragment exactly when the entry
contains a `'-'`. -/
theorem splitDash_length_two_iff (l : List Char) :
    2 ≤ (splitDash l).length ↔ '-' ∈ l := by
  induction l with
  | nil => simp [splitDash]
  | cons c cs ih =>
    unfold splitDash
    by_cases hc : c = '-'
    · subst hc
      have h1 : 1 ≤ (splitDash cs).length :=
        List.length_pos.mpr (splitDash_ne_nil cs)
      constructor
      · intro _; exact List.mem_cons_self _ _
      · intro _
        rw [if_pos rfl]
        simp only [List.length_cons]
        omega
    · rw [if_neg hc]
      cases h : splitDash cs with
      | nil => exact absurd h (splitDash_ne_nil cs)
      | cons s rest =>
        rw [h] at ih
        simp only [List.length_cons, List.mem_cons] at ih ⊢
        constructor
        · intro hl; exact Or.inr (ih.mp hl)
        · intro hm
          rcases hm with hm | hm
          · exact absurd hm.symm hc
          · exact ih.mpr hm

/-- A step that recurses has performed a successful read: every `n = 0`
read ends the recursion at once. -/
theorem step_next_read_pos (file : LargeFile) (resp : PutResponse)
    (offset length off' len' : Nat)
    (h : uploadChunkStep file resp offset length = .next off' len') :
    (file.read offset length).n ≠ 0 := by
  intro hn
  unfold uploadChunkStep at h
  rw [if_pos hn] at h
  rcases herr : (file.read offset length).err with _ | e
  · rw [herr] at h; exact StepResult.noConfusion h
  · cases e <;> rw [herr] at h <;> exact StepResult.noConfusion h

/-! Claim theorems. -/

/-- C1: on a 202 response, a next-range entry of the form `start-`
(end absent) reuses the previous chunk length; but for an entry
`start-end` the code assigns the PARSED END VALUE itself as the next
chunk length (`nextLength = ParseUint(end)` at `driveitems.go` line
786), not `end - start + 1` as the claim states: on the claim's own
example `1048576-2097151` the code uses length 2097151, while
`end - start + 1 = 1048576`. -/
theorem c1_next_length_uses_end_value :
    parseFirstRange "1048576-".toList 1048576 = .ok 1048576 1048576 ∧
    parseFirstRange "1048576-2097151".toList 1048576 = .ok 1048576 2097151 ∧
    (2097151 : Nat) ≠ 2097151 - 1048576 + 1 := by
  refine ⟨by decide, by decide, by decide⟩

/-- C5: a 202 response whose decoded session carries an empty
`NextExpectedRanges` list makes the step terminate with the
protocol error (`driveitems.go` lines 774-776); the result is
`.terminal`, so no further chunk is sent. -/
theorem c5_empty_ranges_fails (file : LargeFile) (statusLine : String)
    (body : Body) (offset length : Nat) (session : UploadSession)
    (hn : (file.read offset length).n ≠ 0)
    (hs : body.asSession = .ok session)
    (hr : session.nextExpectedRanges = []) :
    uploadChunkStep file (.http 202 statusLine body) offset length =
      .terminal (.fail .emptyRanges) := by
  simp [uploadChunkStep, hn, hs, hr]

/-- Witness for C5: a concrete 202 response with no next ranges. -/
theorem c5_empty_ranges_fails_witness :
    uploadChunkStep sampleFile (.http 202 "202 Accepted" (sessionBody []))
      0 4 = .terminal (.fail .emptyRanges) :=
  c5_empty_ranges_fails sampleFile "202 Accepted" (sessionBody []) 0 4
    ⟨[], "sess-url"⟩ (by decide) rfl rfl

/-- C6: the Content-Range header sent for a chunk covers exactly the
bytes actually read: when the read produced `n ≥ 1` bytes at `offset`
(and the range stays inside `uint64`), the header is
`bytes offset-(offset+n-1)/size`. -/
theorem c6_content_range_uses_read_count (file : LargeFile)
    (offset length : Nat) (req : ChunkRequest)
    (h : buildChunkRequest file offset length = some req)
    (hw : offset + req.n ≤ U64) :
    req.contentRangeHeader =
      "bytes " ++ toString offset ++ "-" ++ toString (offset + req.n - 1)
        ++ "/" ++ toString file.size := by
  unfold buildChunkRequest at h
  by_cases hn : (file.read offset length).n = 0
  · rw [if_pos hn] at h; exact Option.noConfusion h
  · rw [if_neg hn] at h
    injection h with h
    subst h
    have hw' : offset + (file.read offset length).n ≤ U64 := hw
    have hU : U64 = 18446744073709551616 := by norm_num [U64]
    have h1 : 1 ≤ (file.read offset length).n := Nat.one_le_iff_ne_zero.mpr hn
    show contentRange offset (file.read offset length).n file.size =
      "bytes " ++ toString offset ++ "-"
        ++ toString (offset + (file.read offset length).n - 1)
        ++ "/" ++ toString file.size
    unfold contentRange
    have hmod : (offset + (U64 - 1) + (file.read offset length).n) % U64 =
        offset + (file.read offset length).n - 1 := by
      have he : offset + (U64 - 1) + (file.read offset length).n =
          (offset + (file.read offset length).n - 1) + U64 := by omega
      rw [he, Nat.add_mod_right, Nat.mod_eq_of_lt (by omega)]
    rw [hmod]

/-- Witness for C6: the spec's example — 500000 of a requested 1048576
bytes read at offset 0 in a 1000000-byte file yields
`bytes 0-499999/1000000`. -/
theorem c6_content_range_uses_read_count_witness :
    buildChunkRequest ⟨"f", 1000000, fun _ _ => ⟨500000, none⟩⟩ 0 1048576 =
      some ⟨500000, "500000", "bytes 0-499999/1000000"⟩ ∧
    (⟨500000, "500000", "bytes 0-499999/1000000"⟩ : ChunkRequest).contentRangeHeader =
      "bytes " ++ toString (0 : Nat) ++ "-" ++ toString (0 + 500000 - 1)
        ++ "/" ++ toString (1000000 : Nat) :=
  ⟨by decide,
    c6_content_range_uses_read_count
      ⟨"f", 1000000, fun _ _ => ⟨500000, none⟩⟩ 0 1048576
      ⟨500000, "500000", "bytes 0-499999/1000000"⟩ (by decide) (by decide)⟩

/-- C7: with a positive requested length, a read that produces zero
bytes with `io.EOF` fails the upload with the "unexpected EOF" error
(`driveitems.go` lines 723-731) and no request is built; a read that
produces a non-zero short count sends exactly the bytes produced
(`buffer = buffer[:n]`, line 734). -/
theorem c7_zero_read_fails_short_read_shrinks (file : LargeFile)
    (resp : PutResponse) (offset length : Nat) (_hl : 0 < length) :
    ((file.read offset length).n = 0 →
      (file.read offset length).err = some .eof →
      uploadChunkStep file resp offset length =
        .terminal (.fail .unexpectedEOF)) ∧
    (1 ≤ (file.read offset length).n →
      ∃ req, buildChunkRequest file offset length = some req ∧
        req.n = (file.read offset length).n ∧
        req.contentLength = toString (file.read offset length).n) := by
  constructor
  · intro hn herr
    unfold uploadChunkStep
    rw [if_pos hn, herr]
  · intro hn
    refine ⟨⟨(file.read offset length).n, toString (file.read offset length).n,
      contentRange offset (file.read offset length).n file.size⟩, ?_, rfl, rfl⟩
    unfold buildChunkRequest
    rw [if_neg (by omega)]

/-- Witness for C7: a reader at end-of-data triggers the unexpected-EOF
failure; a reader producing 7 of 10 requested bytes sends 7 bytes. -/
theorem c7_zero_read_fails_short_read_shrinks_witness :
    (uploadChunkStep sampleFile (.http 200 "200 OK" itemBody) 10 4 =
      .terminal (.fail .unexpectedEOF)) ∧
    ∃ req, buildChunkRequest ⟨"f", 100, fun _ _ => ⟨7, none⟩⟩ 0 10 =
      some req ∧ req.n = 7 ∧ req.contentLength = toString 7 :=
  ⟨(c7_zero_read_fails_short_read_shrinks sampleFile
      (.http 200 "200 OK" itemBody) 10 4 (by decide)).1 (by decide) (by decide),
    (c7_zero_read_fails_short_read_shrinks ⟨"f", 100, fun _ _ => ⟨7, none⟩⟩
      (.http 200 "200 OK" itemBody) 0 10 (by decide)).2 (by decide)⟩

/-- C8: any of the four missing inputs — empty destination folder id,
empty file name, zero size, absent data source — makes
`UploadLargeFile` return a validation error before the session request
is built (`driveitems.go` lines 651-663). -/
theorem c8_validation_before_network (destId name : String) (size : Nat)
    (hasData : Bool)
    (h : destId = "" ∨ name = "" ∨ size = 0 ∨ hasData = false) :
    ∃ msg, uploadLargeFileStart destId name size hasData =
      .validationError msg := by
  unfold uploadLargeFileStart
  by_cases h1 : destId = ""
  · rw [if_pos h1]; exact ⟨_, rfl⟩
  · rw [if_neg h1]
    by_cases h2 : name = ""
    · rw [if_pos h2]; exact ⟨_, rfl⟩
    · rw [if_neg h2]
      by_cases h3 : size = 0
      · rw [if_pos h3]; exact ⟨_, rfl⟩
      · rw [if_neg h3]
        by_cases h4 : hasData = false
        · rw [if_pos h4]; exact ⟨_, rfl⟩
        · rcases h with h | h | h | h <;> simp_all

/-- Witness for C8: an empty destination folder id is rejected. -/
theorem c8_validation_before_network_witness :
    ∃ msg, uploadLargeFileStart "" "file.bin" 10 true =
      .validationError msg :=
  c8_validation_before_network "" "file.bin" 10 true (Or.inl rfl)

/-- C9: once the session exists, the deferred cleanup issues its DELETE
against the session URL on every exit path, and whatever the cleanup
environment does (request-construction failure, transport failure, any
status), the operation's returned outcome is exactly the engine's
result (`driveitems.go` lines 689-701: every failure inside the
deferred block is discarded). -/
theorem c9_cleanup_is_advisory (session : UploadSession)
    (engineResult : Except UploadError DriveItem) (env env' : CleanupEnv) :
    (uploadLargeFileFinish session engineResult env).1 = engineResult ∧
    (uploadLargeFileFinish session engineResult env).2.1 =
      session.uploadUrl ∧
    (uploadLargeFileFinish session engineResult env).1 =
      (uploadLargeFileFinish session engineResult env').1 :=
  ⟨rfl, rfl, rfl⟩

/-- C10: `sp := strings.Split(entry, "-"); sp[1]` is in bounds exactly
for entries containing at least one `'-'`; an entry with no `'-'`
reaches the out-of-bounds branch of the total embedding (a runtime
panic in Go), while a well-formed entry does not. -/
theorem c10_second_fragment_access :
    (∀ entry : List Char,
      2 ≤ (splitDash entry).length ↔ '-' ∈ entry) ∧
    parseFirstRange "12345".toList 4194304 = .panicIndex ∧
    parseFirstRange "123-456".toList 4194304 ≠ .panicIndex :=
  ⟨splitDash_length_two_iff, by decide, by decide⟩

/-- C2 counterexample: the engine adopts a server-returned range with
no check against the file size.  For a 2097152-byte file, a 202
response naming `1048576-2097151` makes the engine continue with
offset 1048576 and length 2097151, and
`1048576 + 2097151 = 3145727 > 2097152`, so the claimed invariant
`offset + length ≤ Size` fails on a resolved pair. -/
theorem c2_invariant_fails :
    uploadChunkStep ⟨"f", 2097152, fun _ len => ⟨len, none⟩⟩
      (.http 202 "202 Accepted" (sessionBody ["1048576-2097151".toList]))
      0 1048576 = .next 1048576 2097151 ∧
    2097152 < 1048576 + 2097151 := by
  refine ⟨by decide, by decide⟩

/-- C2 amended: the `(offset, length)` pair for the next chunk is taken
from the server's entry alone — the step function never consults
`file.Size` (or `file.Name`), so no invariant relating the resolved
pair to the size is enforced; it holds only when the server's entry
happens to respect it. -/
theorem c2_resolution_ignores_size (name₁ name₂ : String)
    (size₁ size₂ : Nat) (read : Nat → Nat → ReadResult)
    (resp : PutResponse) (offset length : Nat) :
    uploadChunkStep ⟨name₁, size₁, read⟩ resp offset length =
      uploadChunkStep ⟨name₂, size₂, read⟩ resp offset length := rfl

/-- C3 counterexample: two non-200/201/202 responses whose bodies do
not parse into the expected error shape and do NOT yield an error
carrying the status line and body.  Body `garbage` (invalid JSON):
the `json.Unmarshal` failure itself is returned (`driveitems.go` lines
796-797), not `400 Bad Request: garbage`.  Body `null` (valid JSON):
`json.Unmarshal` succeeds leaving the `*ErrorResponse` nil, and the
`oneDriveError.Error` read at line 799 is a nil-pointer dereference
panic — no error at all. -/
theorem c3_unparsed_body_keeps_decode_error :
    uploadChunkStep ⟨"f", 100, fun _ len => ⟨len, none⟩⟩
      (.http 400 "400 Bad Request"
        ⟨"garbage", .error "json: invalid input", .error "json: invalid input",
          .error "invalid character g looking for beginning of value"⟩)
      0 10 =
      .terminal (.fail
        (.decodeErrorShape "invalid character g looking for beginning of value")) ∧
    StepResult.terminal (ChunkOutcome.fail
        (UploadError.decodeErrorShape "invalid character g looking for beginning of value")) ≠
      .terminal (.fail (.remoteRaw "400 Bad Request" "garbage")) ∧
    uploadChunkStep ⟨"f", 100, fun _ len => ⟨len, none⟩⟩
      (.http 400 "400 Bad Request"
        ⟨"null", .error "json: invalid input", .error "json: invalid input",
          .ok none⟩)
      0 10 = .terminal .panicNilErrorResponse ∧
    StepResult.terminal ChunkOutcome.panicNilErrorResponse ≠
      .terminal (.fail (.remoteRaw "400 Bad Request" "null")) := by
  refine ⟨by decide, by decide, by decide, by decide⟩

/-- C3 amended: on a status other than 200/201/202 (with the chunk PUT
having been sent), the outcome is: the JSON decode error itself when
the body is not valid JSON; a nil-pointer-dereference panic when the
body is the JSON literal `null` (the decoded `*ErrorResponse` is nil
at `driveitems.go` line 799); the raw status line and body text when
the body decodes to an `ErrorResponse` whose `Error` field is nil; and
the decoded domain error when the error object is present
(`driveitems.go` lines 794-803). -/
theorem c3_default_branch_errors (file : LargeFile) (status : Nat)
    (statusLine : String) (body : Body) (offset length : Nat)
    (hn : (file.read offset length).n ≠ 0)
    (h200 : ¬(status = 200 ∨ status = 201)) (h202 : status ≠ 202) :
    uploadChunkStep file (.http status statusLine body) offset length =
      match body.asError with
      | .error msg => .terminal (.fail (.decodeErrorShape msg))
      | .ok none => .terminal .panicNilErrorResponse
      | .ok (some errResp) =>
        match errResp.error with
        | none => .terminal (.fail (.remoteRaw statusLine body.raw))
        | some e => .terminal (.fail (.domain e)) := by
  unfold uploadChunkStep
  rw [if_neg hn]
  show (if status = 200 ∨ status = 201 then _ else _) = _
  rw [if_neg h200, if_neg h202]

/-- Witness for C3 amended: a 404 whose body decodes into the error
shape fails with the decoded domain error; a 400 whose body decodes to
an `ErrorResponse` with a nil `Error` field fails with the status line
and raw body. -/
theorem c3_default_branch_errors_witness :
    uploadChunkStep ⟨"f", 100, fun _ len => ⟨len, none⟩⟩
      (.http 404 "404 Not Found"
        ⟨"raw", .error "json: invalid input", .error "json: invalid input",
          .ok (some ⟨some ⟨"itemNotFound", "The resource could not be found.", "",
            some ⟨"2020-01-01T00:00:00", "r1", "c1"⟩⟩⟩)⟩)
      0 10 =
      .terminal (.fail (.domain ⟨"itemNotFound", "The resource could not be found.", "",
        some ⟨"2020-01-01T00:00:00", "r1", "c1"⟩⟩)) ∧
    uploadChunkStep ⟨"f", 100, fun _ len => ⟨len, none⟩⟩
      (.http 400 "400 Bad Request"
        ⟨"\x7b\x7d", .error "json: invalid input", .error "json: invalid input",
          .ok (some ⟨none⟩)⟩)
      0 10 =
      .terminal (.fail (.remoteRaw "400 Bad Request" "\x7b\x7d")) :=
  ⟨c3_default_branch_errors ⟨"f", 100, fun _ len => ⟨len, none⟩⟩ 404
      "404 Not Found"
      ⟨"raw", .error "json: invalid input", .error "json: invalid input",
        .ok (some ⟨some ⟨"itemNotFound", "The resource could not be found.", "",
          some ⟨"2020-01-01T00:00:00", "r1", "c1"⟩⟩⟩)⟩
      0 10 (by decide) (by decide) (by decide),
    c3_default_branch_errors ⟨"f", 100, fun _ len => ⟨len, none⟩⟩ 400
      "400 Bad Request"
      ⟨"\x7b\x7d", .error "json: invalid input", .error "json: invalid input",
        .ok (some ⟨none⟩)⟩
      0 10 (by decide) (by decide) (by decide)⟩

/-- Once the recursion has reached a terminal outcome, it stays
terminal. -/
theorem runStates_none_succ (file : LargeFile) (resp : Nat → PutResponse)
    (init : Nat × Nat) (k : Nat)
    (h : runStates file resp init k = none) :
    runStates file resp init (k + 1) = none := by
  unfold runStates
  rw [h]

theorem runStates_none_add (file : LargeFile) (resp : Nat → PutResponse)
    (init : Nat × Nat) (k : Nat)
    (h : runStates file resp init k = none) (j : Nat) :
    runStates file resp init (k + j) = none := by
  induction j with
  | zero => exact h
  | succ j ih => exact runStates_none_succ _ _ _ _ ih

/-- Fuel `file.size + 1 - offset` suffices for the recursion from any
reachable state: each recursive step strictly advances the offset, and
a read at or past the end of a contract-honouring reader produces
`n = 0`, ending the recursion. -/
theorem runUpload_of_advancing (file : LargeFile)
    (resp : Nat → PutResponse) (init : Nat × Nat)
    (heof : ∀ off len, file.size ≤ off → (file.read off len).n = 0)
    (hadv : ∀ k st st', runStates file resp init k = some st →
      runStates file resp init (k + 1) = some st' → st.1 < st'.1) :
    ∀ fuel k st, runStates file resp init k = some st →
      file.size + 1 - st.1 < fuel →
      (runUpload file resp fuel k st).isSome = true := by
  intro fuel
  induction fuel with
  | zero => intro k st _ hlt; omega
  | succ fuel ih =>
    intro k st hst hlt
    unfold runUpload
    cases hstep : uploadChunkStep file (resp k) st.1 st.2 with
    | terminal o => simp
    | next off len =>
      simp only
      have hn := step_next_read_pos file (resp k) st.1 st.2 off len hstep
      have hoff : st.1 < file.size := by
        by_contra hge
        exact hn (heof st.1 st.2 (by omega))
      have hnext : runStates file resp init (k + 1) = some (off, len) := by
        unfold runStates
        rw [hst]
        simp only [hstep]
      have hadvk := hadv k st (off, len) hst hnext
      exact ih (k + 1) (off, len) hnext (by simp only at hadvk; omega)

/-- C4 amended: against any server whose 202 answers strictly advance
the offset along the actual run, and any reader honouring the
`io.ReaderAt` end-of-data contract, the recursion of `uploadChunk`
reaches a terminal outcome within `size + 2` iterations.  (The claim's
second half — failing with a protocol error on a non-advancing offset —
is refuted separately: the code has no such guard.) -/
theorem c4_advancing_offsets_terminate (file : LargeFile)
    (resp : Nat → PutResponse) (initLen : Nat)
    (heof : ∀ off len, file.size ≤ off → (file.read off len).n = 0)
    (hadv : ∀ k st st', runStates file resp (0, initLen) k = some st →
      runStates file resp (0, initLen) (k + 1) = some st' → st.1 < st'.1) :
    (runUpload file resp (file.size + 2) 0 (0, initLen)).isSome = true :=
  runUpload_of_advancing file resp (0, initLen) heof hadv
    (file.size + 2) 0 (0, initLen) rfl (by omega)

/-- Witness for C4 amended: the 10-byte sample file against the
advancing server script finishes within its fuel bound. -/
theorem c4_advancing_offsets_terminate_witness :
    (runUpload sampleFile advancingResp 12 0 (0, 4)).isSome = true :=
  c4_advancing_offsets_terminate sampleFile advancingResp 4
    (fun off len h => by
      simp only [sampleFile] at h ⊢
      rw [if_pos h])
    (fun k st st' h1 h2 => by
      match k with
      | 0 =>
        have e0 : runStates sampleFile advancingResp (0, 4) 0 =
          some (0, 4) := rfl
        have e1 : runStates sampleFile advancingResp (0, 4) 1 =
          some (4, 4) := by decide
        rw [e0] at h1
        rw [e1] at h2
        injection h1 with h1
        injection h2 with h2
        subst h1
        subst h2
        decide
      | 1 =>
        have e1 : runStates sampleFile advancingResp (0, 4) 1 =
          some (4, 4) := by decide
        have e2 : runStates sampleFile advancingResp (0, 4) 2 =
          some (8, 4) := by decide
        rw [e1] at h1
        rw [e2] at h2
        injection h1 with h1
        injection h2 with h2
        subst h1
        subst h2
        decide
      | 2 =>
        have e3 : runStates sampleFile advancingResp (0, 4) 3 = none := by
          decide
        rw [e3] at h2
        exact Option.noConfusion h2
      | (j + 3) =>
        have e3 : runStates sampleFile advancingResp (0, 4) 3 = none := by
          decide
        have hnone := runStates_none_add sampleFile advancingResp (0, 4) 3 e3 j
        rw [Nat.add_comm 3 j] at hnone
        rw [hnone] at h1
        exact Option.noConfusion h1)

/-- C4 counterexample: the code has no guard against a non-advancing
offset.  Against a server that always answers 202 with the same range
`0-`, one step from state `(0, 4)` returns to state `(0, 4)` (the
recursion's state is a fixed point, so it never terminates), and after
100 iterations there is still no outcome — in particular no protocol
error. -/
theorem c4_non_advancing_never_fails :
    uploadChunkStep sampleFile (repeatingResp 0) 0 4 = .next 0 4 ∧
    runUpload sampleFile repeatingResp 100 0 (0, 4) = none := by
  refine ⟨by decide, by decide⟩

end OneDrive
